import Mathlib

/-!
Shallow embedding of the CodeRefine backend, `src/main.py`.

The program is a single-endpoint web backend: a startup lifecycle manager
(`lifespan`) initialises three nullable module-level handles (a local
security scorer and two LLM provider clients), and the request handler
(`analyze_code`) scores the submitted code (best-effort), builds a prompt,
dispatches it to the provider selected by `payload.model`, and shapes the
response.

External capabilities (the transformers pipeline, the Gemini and Groq
SDK clients) are opaque in the source; here they are modelled as functions
that may fail, `Except Exc`, where `Exc` is the `str(e)` form of a raised
Python exception.  A `FastAPI` `HTTPException` escaping the handler is the
`AnalyzeResult.httpError` constructor; a normal JSON body is
`AnalyzeResult.success`.
-/

/-- `str(e)` of a raised Python exception. -/
abbrev Exc := String

/-- One element of a transformers text-classification result: a dict whose
`label` key may be absent (`.get('label', '')` supplies the default). -/
structure HFItem where
  label : Option String
deriving Repr, DecidableEq

/-- The `security_scanner` pipeline: called on a text snippet, returns the
list of classification dicts, or raises. -/
abbrev Scanner := String → Except Exc (List HFItem)

/-- `chat_completion.choices[i].message` of the Groq SDK. -/
structure GroqMessage where
  content : String
deriving Repr, DecidableEq

/-- `chat_completion.choices[i]` of the Groq SDK. -/
structure GroqChoice where
  message : GroqMessage
deriving Repr, DecidableEq

/-- The Groq chat-completion response object. -/
structure GroqCompletion where
  choices : List GroqChoice
deriving Repr, DecidableEq

/-- `groq_client.chat.completions.create(messages=..., model=...)`:
takes the messages (as role/content pairs) and the model id; may raise. -/
abbrev GroqClient := List (String × String) → String → Except Exc GroqCompletion

/-- The Gemini `generate_content` response object: `text` is the attribute
read by `getattr(response, 'text', str(response))` (absent when the object
lacks it), `strForm` is `str(response)`. -/
structure GeminiResponse where
  text : Option String
  strForm : String
deriving Repr, DecidableEq

/-- `gemini_client.models.generate_content(model=..., contents=...)`:
takes the model id and the contents; may raise. -/
abbrev GeminiClient := String → String → Except Exc GeminiResponse

/-- The three module-level handles of `main.py` (`security_scanner`,
`gemini_client`, `groq_client`), each independently nullable. -/
structure Env where
  security_scanner : Option Scanner
  gemini_client : Option GeminiClient
  groq_client : Option GroqClient

/-- The request body `CodePayload(BaseModel)`: `code: str`,
`model: str = "gemini"`. -/
structure CodePayload where
  code : String
  model : String := "gemini"
deriving Repr, DecidableEq

/-- Outcome of one call to the `/analyze` handler: either an
`HTTPException` escaping with a true error status, or a normal-status JSON
body `{"security_score": ..., "analysis": ...}`. -/
inductive AnalyzeResult where
  | httpError (statusCode : Nat) (detail : String)
  | success (security_score : String) (analysis : String)
deriving Repr, DecidableEq

/-- The `security_score` field of a normal-status body, if any. -/
def AnalyzeResult.score? : AnalyzeResult → Option String
  | AnalyzeResult.success s _ => some s
  | AnalyzeResult.httpError _ _ => none

/-- An outbound provider invocation, as instrumentation: which client was
called and with which arguments. -/
inductive Call where
  | groq (messages : List (String × String)) (modelId : String)
  | gemini (modelId : String) (contents : String)
deriving Repr, DecidableEq

/-- Whether a recorded call went to the Groq client. -/
def Call.isGroq : Call → Bool
  | Call.groq _ _ => true
  | Call.gemini _ _ => false

/-- Whether a recorded call went to the Gemini client. -/
def Call.isGemini : Call → Bool
  | Call.groq _ _ => false
  | Call.gemini _ _ => true

/-- The prompt string carried by a recorded provider call: for Groq it is
the `content` of the single user message, for Gemini the `contents`. -/
def Call.usesPrompt : Call → String → Prop
  | Call.groq msgs _, p => msgs = [("user", p)]
  | Call.gemini _ contents, p => contents = p

/-- Step A of `analyze_code` (main.py lines 128-137): best-effort local
security scan.  The scanner runs only when the handle is present and
`payload.code` is truthy (non-empty); it is applied to `payload.code[:512]`;
`hf_result[0]` raising `IndexError` on an empty result, the scanner raising,
or any other exception inside the inner `try` falls back to `"unknown"`;
`raw_label = hf_result[0].get('label', '')` and the status is `"insecure"`
iff the raw label is `"LABEL_1"`, else `"secure"`. -/
def scanStep (security_scanner : Option Scanner) (code : String) : String :=
  match security_scanner with
  | some scanner =>
    if code ≠ "" then
      match scanner (code.take 512) with
      | Except.ok hf_result =>
        match hf_result.head? with
        | some item =>
          let raw_label := item.label.getD ""
          if raw_label = "LABEL_1" then "insecure" else "secure"
        | none => "unknown"
      | Except.error _ => "unknown"
    else "unknown"
  | none => "unknown"

/-- Instrumentation for Step A: the list of inputs passed to the scanner
(empty when the scanner is absent or the code empty, else the single
truncated snippet). -/
def scanInputs (security_scanner : Option Scanner) (code : String) : List String :=
  match security_scanner with
  | some _ => if code ≠ "" then [code.take 512] else []
  | none => []

/-- Literal segment of the f-string prompt before `{status}`. -/
def promptHead : String := "\n        Review this code which the scanner marked as "

/-- The instruction sentence inside the prompt. -/
def instructionText : String :=
  "Provide a brief bug report and then the fully optimized version."

/-- Literal segment of the f-string prompt between `{status}` and
`{payload.code}`. -/
def promptMid : String := ".\n        " ++ instructionText ++ "\n        \n        CODE:\n        "

/-- Literal segment of the f-string prompt after `{payload.code}`. -/
def promptTail : String := "\n        "

/-- Step B of `analyze_code` (main.py lines 140-146): the f-string prompt,
interpolating the scan status and the verbatim code. -/
def buildPrompt (status code : String) : String :=
  promptHead ++ status ++ promptMid ++ code ++ promptTail

/-- The `/analyze` handler `analyze_code` (main.py lines 124-176).
Steps: scan (best-effort), prompt construction, routing on
`payload.model == "groq"`, provider dispatch, response shaping.  A missing
selected client raises `HTTPException(503, ...)`, which the
`except HTTPException: raise` clause re-raises; every other exception is
caught by the final `except Exception` clause and shaped as a
normal-status `{"security_score": "error", "analysis": f"Backend Error: {str(e)}"}`
body. -/
def analyze_code (env : Env) (payload : CodePayload) : AnalyzeResult :=
  let status := scanStep env.security_scanner payload.code
  let prompt := buildPrompt status payload.code
  if payload.model = "groq" then
    match env.groq_client with
    | none => AnalyzeResult.httpError 503 "Groq client not available"
    | some groqClient =>
      match groqClient [("user", prompt)] "llama-3.3-70b-versatile" with
      | Except.error e => AnalyzeResult.success "error" ("Backend Error: " ++ e)
      | Except.ok chat_completion =>
        match chat_completion.choices.head? with
        | none => AnalyzeResult.success "error" ("Backend Error: list index out of range")
        | some choice => AnalyzeResult.success status choice.message.content
  else
    match env.gemini_client with
    | none => AnalyzeResult.httpError 503 "Gemini client not available"
    | some geminiClient =>
      match geminiClient "gemini-2.0-flash" prompt with
      | Except.error e => AnalyzeResult.success "error" ("Backend Error: " ++ e)
      | Except.ok response =>
        AnalyzeResult.success status (response.text.getD response.strForm)

/-- `analyze_code` instrumented with the provider calls it performs and the
inputs it hands the scanner; its result component coincides with
`analyze_code` (`analyze_code_trace_fst`). -/
def analyze_code_trace (env : Env) (payload : CodePayload) :
    AnalyzeResult × List String × List Call :=
  let status := scanStep env.security_scanner payload.code
  let scans := scanInputs env.security_scanner payload.code
  let prompt := buildPrompt status payload.code
  if payload.model = "groq" then
    match env.groq_client with
    | none => (AnalyzeResult.httpError 503 "Groq client not available", scans, [])
    | some groqClient =>
      let c := Call.groq [("user", prompt)] "llama-3.3-70b-versatile"
      match groqClient [("user", prompt)] "llama-3.3-70b-versatile" with
      | Except.error e => (AnalyzeResult.success "error" ("Backend Error: " ++ e), scans, [c])
      | Except.ok chat_completion =>
        match chat_completion.choices.head? with
        | none => (AnalyzeResult.success "error" ("Backend Error: list index out of range"), scans, [c])
        | some choice => (AnalyzeResult.success status choice.message.content, scans, [c])
  else
    match env.gemini_client with
    | none => (AnalyzeResult.httpError 503 "Gemini client not available", scans, [])
    | some geminiClient =>
      let c := Call.gemini "gemini-2.0-flash" prompt
      match geminiClient "gemini-2.0-flash" prompt with
      | Except.error e => (AnalyzeResult.success "error" ("Backend Error: " ++ e), scans, [c])
      | Except.ok response =>
        (AnalyzeResult.success status (response.text.getD response.strForm), scans, [c])

/-- The provider calls recorded for one request. -/
def callsOf (env : Env) (payload : CodePayload) : List Call :=
  (analyze_code_trace env payload).2.2

theorem analyze_code_trace_fst (env : Env) (payload : CodePayload) :
    (analyze_code_trace env payload).1 = analyze_code env payload := by
  unfold analyze_code analyze_code_trace
  by_cases h : payload.model = "groq" <;> simp only [h, if_true, if_false, reduceIte]
  · cases env.groq_client with
    | none => rfl
    | some g =>
      cases hg : g [("user", buildPrompt (scanStep env.security_scanner payload.code) payload.code)] "llama-3.3-70b-versatile" with
      | error e => simp [hg]
      | ok cc =>
        cases hc : cc.choices.head? with
        | none => simp [hg, hc]
        | some c => simp [hg, hc]
  · cases env.gemini_client with
    | none => rfl
    | some g =>
      cases hg : g "gemini-2.0-flash" (buildPrompt (scanStep env.security_scanner payload.code) payload.code) with
      | error e => simp [hg]
      | ok r => simp [hg]

/-- Constructor `genai.Client(api_key=...)`: may raise. -/
abbrev GeminiCtor := String → Except Exc GeminiClient

/-- Constructor `Groq(api_key=...)`: may raise. -/
abbrev GroqCtor := String → Except Exc GroqClient

/-- Constructor `pipeline(task, model=...)`: may raise. -/
abbrev PipelineCtor := String → String → Except Exc Scanner

/-- What the process finds at startup: which SDK imports succeeded
(`genai`, `Groq`, `pipeline` are `None` on failed import) and what
`os.getenv` returns for the two credential variables. -/
structure StartupEnv where
  pipeline : Option PipelineCtor
  genai : Option GeminiCtor
  Groq : Option GroqCtor
  GEMINI_API_KEY : Option String
  GROQ_API_KEY : Option String

/-- The hard-disabled policy flag: the scanner-loading branch of `lifespan`
is guarded by the literal `if False and pipeline is not None:`
(main.py line 44). -/
def scannerLoadingEnabled : Bool := false

/-- The startup phase of `lifespan` (main.py lines 38-84): computes the
three module-level handles from the environment.  The scanner branch is
dead (`if False and ...`); each provider client is constructed only when
its SDK imported and its credential is truthy (set and non-empty), and a
constructor that raises is caught, leaving the handle `None`. -/
def lifespan_startup (senv : StartupEnv) : Env :=
  let security_scanner : Option Scanner :=
    if scannerLoadingEnabled && senv.pipeline.isSome then
      match senv.pipeline with
      | some p =>
        match p "text-classification" "mrm8488/codebert-base-finetuned-detect-insecure-code" with
        | Except.ok s => some s
        | Except.error _ => none
      | none => none
    else none
  let gemini_client : Option GeminiClient :=
    match senv.genai, senv.GEMINI_API_KEY with
    | some ctor, some gemini_key =>
      if gemini_key ≠ "" then
        match ctor gemini_key with
        | Except.ok c => some c
        | Except.error _ => none
      else none
    | _, _ => none
  let groq_client : Option GroqClient :=
    match senv.Groq, senv.GROQ_API_KEY with
    | some ctor, some groq_key =>
      if groq_key ≠ "" then
        match ctor groq_key with
        | Except.ok c => some c
        | Except.error _ => none
      else none
    | _, _ => none
  { security_scanner := security_scanner
    gemini_client := gemini_client
    groq_client := groq_client }

/-! ## Stub capabilities used by concrete witnesses -/

/-- A deterministic Gemini stub whose responses carry text `"OK"`. -/
def geminiStubOK : GeminiClient := fun _ _ => Except.ok ⟨some "OK", "GenerateContentResponse()"⟩

/-- A deterministic Groq stub whose completions carry content `"GROQ-OK"`. -/
def groqStubOK : GroqClient := fun _ _ => Except.ok ⟨[⟨⟨"GROQ-OK"⟩⟩]⟩

/-- A scanner stub that always raises. -/
def scannerRaise : Scanner := fun _ => Except.error "scanner boom"

/-- A scanner stub that labels everything with the positive class. -/
def scannerLabel1 : Scanner := fun _ => Except.ok [⟨some "LABEL_1"⟩]

/-- Handle state with both providers available and no scanner. -/
def envBoth : Env := ⟨none, some geminiStubOK, some groqStubOK⟩

/-- The provider calls of a request, in closed form: none when the selected
client is absent, exactly one call to the selected client otherwise. -/
theorem callsOf_eq (env : Env) (payload : CodePayload) :
    callsOf env payload =
      if payload.model = "groq" then
        match env.groq_client with
        | none => []
        | some _ =>
          [Call.groq
            [("user", buildPrompt (scanStep env.security_scanner payload.code) payload.code)]
            "llama-3.3-70b-versatile"]
      else
        match env.gemini_client with
        | none => []
        | some _ =>
          [Call.gemini "gemini-2.0-flash"
            (buildPrompt (scanStep env.security_scanner payload.code) payload.code)] := by
  unfold callsOf analyze_code_trace
  by_cases h : payload.model = "groq" <;> simp only [h, if_true, if_false, reduceIte]
  · cases env.groq_client with
    | none => rfl
    | some g =>
      cases hg : g [("user", buildPrompt (scanStep env.security_scanner payload.code) payload.code)] "llama-3.3-70b-versatile" with
      | error e => simp [hg]
      | ok cc => cases hc : cc.choices.head? <;> simp [hg, hc]
  · cases env.gemini_client with
    | none => rfl
    | some g =>
      cases hg : g "gemini-2.0-flash" (buildPrompt (scanStep env.security_scanner payload.code) payload.code) with
      | error e => simp [hg]
      | ok r => simp [hg]

/-- C1: if `payload.model` equals `"groq"` every provider call of the
request goes to the Groq handle and none to the Gemini one, and for every
other value of `payload.model` every call goes to the Gemini handle and
none to the Groq one; when the selected handle is present exactly one call
is made, and when it is absent no call at all is made (no silent fallback
between providers). -/
theorem C1_routing_exclusive (env : Env) (payload : CodePayload) :
    (payload.model = "groq" →
      (∀ c ∈ callsOf env payload, c.isGroq = true ∧ c.isGemini = false) ∧
      (env.groq_client = none → callsOf env payload = []) ∧
      (env.groq_client.isSome = true → (callsOf env payload).length = 1)) ∧
    (payload.model ≠ "groq" →
      (∀ c ∈ callsOf env payload, c.isGemini = true ∧ c.isGroq = false) ∧
      (env.gemini_client = none → callsOf env payload = []) ∧
      (env.gemini_client.isSome = true → (callsOf env payload).length = 1)) := by
  rw [callsOf_eq]
  constructor
  · intro h
    simp only [h, if_true, reduceIte]
    cases env.groq_client with
    | none =>
      refine ⟨by simp, fun _ => rfl, ?_⟩
      intro hs; simp [Option.isSome] at hs
    | some g =>
      refine ⟨?_, ?_, fun _ => rfl⟩
      · intro c hc
        simp only [List.mem_singleton] at hc
        subst hc
        exact ⟨rfl, rfl⟩
      · intro hnone; cases hnone
  · intro h
    rw [if_neg h]
    cases env.gemini_client with
    | none =>
      refine ⟨by simp, fun _ => rfl, ?_⟩
      intro hs; simp [Option.isSome] at hs
    | some g =>
      refine ⟨?_, ?_, fun _ => rfl⟩
      · intro c hc
        simp only [List.mem_singleton] at hc
        subst hc
        exact ⟨rfl, rfl⟩
      · intro hnone; cases hnone

/-- Witness for C1 at concrete inputs: with both providers present, a
`"groq"` request makes exactly one call and a `"gemini"` request makes
exactly one call. -/
theorem C1_routing_exclusive_witness :
    (callsOf envBoth ⟨"x=1", "groq"⟩).length = 1 ∧
    (callsOf envBoth ⟨"x=1", "gemini"⟩).length = 1 := by
  constructor
  · exact ((C1_routing_exclusive envBoth ⟨"x=1", "groq"⟩).1 rfl).2.2 rfl
  · exact ((C1_routing_exclusive envBoth ⟨"x=1", "gemini"⟩).2 (by decide)).2.2 rfl

/-- C2: when the handle selected by `payload.model` is absent, the handler
raises `HTTPException(503, ...)`, which escapes as a true error status (not
the success-shaped error body), no provider is invoked, and no
completion-derived analysis text is returned. -/
theorem C2_unavailable_503 (env : Env) (payload : CodePayload) :
    (payload.model = "groq" → env.groq_client = none →
      analyze_code env payload = AnalyzeResult.httpError 503 "Groq client not available" ∧
      callsOf env payload = []) ∧
    (payload.model ≠ "groq" → env.gemini_client = none →
      analyze_code env payload = AnalyzeResult.httpError 503 "Gemini client not available" ∧
      callsOf env payload = []) := by
  constructor
  · intro hm hc
    constructor
    · unfold analyze_code
      simp only [hm, if_true, reduceIte, hc]
    · rw [callsOf_eq]
      simp only [hm, if_true, reduceIte, hc]
  · intro hm hc
    constructor
    · unfold analyze_code
      rw [if_neg hm, hc]
    · rw [callsOf_eq, if_neg hm, hc]

/-- Handle state with only the Gemini provider available. -/
def envGeminiOnly : Env := ⟨none, some geminiStubOK, none⟩

/-- Witness for C2 at a concrete input: the spec scenario
`{"code": "x=1", "model": "groq"}` with the Groq handle absent yields the
503 and no provider call. -/
theorem C2_unavailable_503_witness :
    analyze_code envGeminiOnly ⟨"x=1", "groq"⟩ =
      AnalyzeResult.httpError 503 "Groq client not available" ∧
    callsOf envGeminiOnly ⟨"x=1", "groq"⟩ = [] :=
  (C2_unavailable_503 envGeminiOnly ⟨"x=1", "groq"⟩).1 rfl rfl

/-- The error envelope's analysis text is never empty. -/
theorem backendError_ne_empty (e : Exc) : ("Backend Error: " ++ e) ≠ "" := by
  intro h
  have h2 := congrArg String.length h
  rw [String.length_append] at h2
  have h3 : ("Backend Error: " : String).length = 15 := rfl
  have h4 : ("" : String).length = 0 := rfl
  omega

/-- Handle state whose scanner always raises, with Gemini available. -/
def envScanRaises : Env := ⟨some scannerRaise, some geminiStubOK, none⟩

/-- C3 counterexample: the scanner raises during the scoring step (at the
exact input the scan step passes it), yet the request completes with body
`{"security_score": "unknown", "analysis": "OK"}` — not the
`security_score = "error"` body the claim requires for exceptions raised in
the scoring step. -/
theorem C3_counterexample :
    scannerRaise ("x=1".take 512) = Except.error "scanner boom" ∧
    analyze_code envScanRaises ⟨"x=1", "gemini"⟩ = AnalyzeResult.success "unknown" "OK" ∧
    (analyze_code envScanRaises ⟨"x=1", "gemini"⟩).score? ≠ some "error" := by
  refine ⟨rfl, rfl, by decide⟩

/-- C3 (amended): an exception raised inside the scoring step is caught
there and yields the verdict `"unknown"` (not the error envelope), while an
exception raised by the dispatched provider call — for either provider —
is caught by the catch-all and yields a normal-status body
`{"security_score": "error", "analysis": s}` with `s` non-empty; neither
kind of exception escapes as an HTTP error status. -/
theorem C3_amended_error_envelope (env : Env) (payload : CodePayload) (e : Exc) :
    (∀ s, env.security_scanner = some s → payload.code ≠ "" →
      s (payload.code.take 512) = Except.error e →
      scanStep env.security_scanner payload.code = "unknown") ∧
    (payload.model = "groq" → ∀ g, env.groq_client = some g →
      g [("user", buildPrompt (scanStep env.security_scanner payload.code) payload.code)]
          "llama-3.3-70b-versatile" = Except.error e →
      analyze_code env payload = AnalyzeResult.success "error" ("Backend Error: " ++ e) ∧
      ("Backend Error: " ++ e) ≠ "") ∧
    (payload.model ≠ "groq" → ∀ g, env.gemini_client = some g →
      g "gemini-2.0-flash" (buildPrompt (scanStep env.security_scanner payload.code) payload.code)
        = Except.error e →
      analyze_code env payload = AnalyzeResult.success "error" ("Backend Error: " ++ e) ∧
      ("Backend Error: " ++ e) ≠ "") := by
  refine ⟨?_, ?_, ?_⟩
  · intro s hs hcode herr
    simp [scanStep, hs, hcode, herr]
  · intro hm g hg hcall
    refine ⟨?_, backendError_ne_empty e⟩
    unfold analyze_code
    simp only [hm, if_true, reduceIte, hg, hcall]
  · intro hm g hg hcall
    refine ⟨?_, backendError_ne_empty e⟩
    unfold analyze_code
    rw [if_neg hm, hg]
    simp only [hcall]

/-- A Groq stub whose call always raises. -/
def groqStubRaise : GroqClient := fun _ _ => Except.error "ConnectionError"

/-- Handle state with only a raising Groq client. -/
def envGroqRaises : Env := ⟨none, none, some groqStubRaise⟩

/-- Witness for the amended C3 at a concrete input: a raising Groq call
yields the non-empty error envelope with a normal-shaped body. -/
theorem C3_amended_error_envelope_witness :
    analyze_code envGroqRaises ⟨"x=1", "groq"⟩ =
      AnalyzeResult.success "error" ("Backend Error: " ++ "ConnectionError") ∧
    ("Backend Error: " ++ "ConnectionError") ≠ "" :=
  (C3_amended_error_envelope envGroqRaises ⟨"x=1", "groq"⟩ "ConnectionError").2.1
    rfl groqStubRaise rfl rfl

/-- C4: when the scanner is present, the code non-empty, and the scanner
call succeeds with a first result item, the scanner is applied exactly to
`payload.code[:512]` — a string of length at most 512 that is an initial
segment of the code — and the verdict is `"insecure"` precisely when the
raw label (`.get('label', '')`) equals `"LABEL_1"`, and `"secure"` for
every other label value. -/
theorem C4_scorer_mapping (env : Env) (payload : CodePayload) (s : Scanner)
    (hf_result : List HFItem) (item : HFItem)
    (hs : env.security_scanner = some s) (hcode : payload.code ≠ "")
    (hok : s (payload.code.take 512) = Except.ok hf_result)
    (hhead : hf_result.head? = some item) :
    scanInputs env.security_scanner payload.code = [payload.code.take 512] ∧
    (payload.code.take 512).length ≤ 512 ∧
    payload.code.take 512 ++ payload.code.drop 512 = payload.code ∧
    scanStep env.security_scanner payload.code =
      (if item.label.getD "" = "LABEL_1" then "insecure" else "secure") ∧
    (scanStep env.security_scanner payload.code = "insecure" ↔
      item.label.getD "" = "LABEL_1") ∧
    (item.label.getD "" ≠ "LABEL_1" →
      scanStep env.security_scanner payload.code = "secure") := by
  have hstep : scanStep env.security_scanner payload.code =
      (if item.label.getD "" = "LABEL_1" then "insecure" else "secure") := by
    simp [scanStep, hs, hcode, hok, hhead]
  refine ⟨by simp [scanInputs, hs, hcode], ?_, ?_, hstep, ?_, ?_⟩
  · rw [String.take_eq]
    exact List.length_take_le 512 payload.code.data
  · rw [String.take_eq, String.drop_eq]
    show String.mk _ = payload.code
    simp [String.append]
  · rw [hstep]
    by_cases hl : item.label.getD "" = "LABEL_1"
    · simp [hl]
    · rw [if_neg hl]
      exact ⟨fun h => absurd h (by decide), fun h => absurd h hl⟩
  · intro hl
    rw [hstep, if_neg hl]

/-- Handle state whose scanner labels everything `LABEL_1`. -/
def envLabel1 : Env := ⟨some scannerLabel1, some geminiStubOK, none⟩

/-- Witness for C4 at a concrete input: the positive-class label maps to
`"insecure"` and the scanner received the truncated snippet. -/
theorem C4_scorer_mapping_witness :
    scanInputs envLabel1.security_scanner "eval(x)" = ["eval(x)".take 512] ∧
    scanStep envLabel1.security_scanner "eval(x)" = "insecure" := by
  have h := C4_scorer_mapping envLabel1 ⟨"eval(x)", "gemini"⟩ scannerLabel1
    [⟨some "LABEL_1"⟩] ⟨some "LABEL_1"⟩ rfl (by decide) rfl rfl
  exact ⟨h.1, h.2.2.2.2.1.mpr rfl⟩

/-- C5: when the scanner handle is absent, or the code is empty, or the
scanner call raises, the scoring step yields `"unknown"` without
propagating any exception, and if the selected provider call then succeeds
the request completes normally with the provider's text and
`security_score = "unknown"`. -/
theorem C5_unknown_flow (env : Env) (payload : CodePayload)
    (h : env.security_scanner = none ∨ payload.code = "" ∨
      ∃ s e, env.security_scanner = some s ∧
        s (payload.code.take 512) = Except.error e) :
    scanStep env.security_scanner payload.code = "unknown" ∧
    (∀ g r, payload.model ≠ "groq" → env.gemini_client = some g →
      g "gemini-2.0-flash" (buildPrompt "unknown" payload.code) = Except.ok r →
      analyze_code env payload =
        AnalyzeResult.success "unknown" (r.text.getD r.strForm)) ∧
    (∀ g cc choice, payload.model = "groq" → env.groq_client = some g →
      g [("user", buildPrompt "unknown" payload.code)] "llama-3.3-70b-versatile"
        = Except.ok cc →
      cc.choices.head? = some choice →
      analyze_code env payload =
        AnalyzeResult.success "unknown" choice.message.content) := by
  have hstep : scanStep env.security_scanner payload.code = "unknown" := by
    rcases h with h | h | ⟨s, e, hs, herr⟩
    · simp [scanStep, h]
    · cases hsc : env.security_scanner <;> simp [scanStep, h, hsc]
    · simp [scanStep, hs, herr]
  refine ⟨hstep, ?_, ?_⟩
  · intro g r hm hg hcall
    unfold analyze_code
    rw [if_neg hm]
    simp only [hg, hstep, hcall]
  · intro g cc choice hm hg hcall hhead
    unfold analyze_code
    simp only [hm, if_true, reduceIte, hg, hstep, hcall, hhead]

/-- Witness for C5 at the spec's concrete scenario:
`{"code": "", "model": "gemini"}` with the Gemini stub returning `"OK"`
yields `{"security_score": "unknown", "analysis": "OK"}`. -/
theorem C5_unknown_flow_witness :
    analyze_code envGeminiOnly ⟨"", "gemini"⟩ =
      AnalyzeResult.success "unknown" "OK" :=
  (C5_unknown_flow envGeminiOnly ⟨"", "gemini"⟩ (Or.inr (Or.inl rfl))).2.1
    geminiStubOK ⟨some "OK", "GenerateContentResponse()"⟩ (by decide) rfl rfl

/-- A Groq stub whose completion has no choices (the expected text field is
missing from the response object). -/
def groqStubEmpty : GroqClient := fun _ _ => Except.ok ⟨[]⟩

/-- Handle state with only the empty-completion Groq client. -/
def envGroqEmpty : Env := ⟨none, none, some groqStubEmpty⟩

/-- C6 counterexample: on the Groq path a response lacking the expected
text (`choices` empty, so `choices[0]` raises `IndexError`) is NOT turned
into a generic string form of the response object — it falls into the
catch-all and produces the `security_score = "error"` envelope, discarding
the scan verdict. -/
theorem C6_counterexample :
    groqStubEmpty [("user", buildPrompt "unknown" "x=1")] "llama-3.3-70b-versatile"
      = Except.ok ⟨[]⟩ ∧
    analyze_code envGroqEmpty ⟨"x=1", "groq"⟩ =
      AnalyzeResult.success "error" ("Backend Error: list index out of range") ∧
    (analyze_code envGroqEmpty ⟨"x=1", "groq"⟩).score? ≠ some "unknown" :=
  ⟨rfl, rfl, by decide⟩

/-- C6 (amended): only the Gemini path has the text-field fallback — a
Gemini response lacking `text` yields `str(response)` as the analysis with
the scan verdict intact — whereas a Groq response lacking the expected
content (empty `choices`) is handled by the generic catch-all, yielding
the success-shaped error envelope instead of a string form of the
response. -/
theorem C6_amended_text_fallback (env : Env) (payload : CodePayload) :
    (∀ g r, payload.model ≠ "groq" → env.gemini_client = some g →
      g "gemini-2.0-flash"
          (buildPrompt (scanStep env.security_scanner payload.code) payload.code)
        = Except.ok r →
      r.text = none →
      analyze_code env payload =
        AnalyzeResult.success (scanStep env.security_scanner payload.code) r.strForm) ∧
    (∀ g cc, payload.model = "groq" → env.groq_client = some g →
      g [("user", buildPrompt (scanStep env.security_scanner payload.code) payload.code)]
          "llama-3.3-70b-versatile" = Except.ok cc →
      cc.choices = [] →
      analyze_code env payload =
        AnalyzeResult.success "error" ("Backend Error: list index out of range")) := by
  constructor
  · intro g r hm hg hcall htext
    unfold analyze_code
    rw [if_neg hm]
    simp only [hg, hcall, htext, Option.getD_none]
  · intro g cc hm hg hcall hchoices
    unfold analyze_code
    simp only [hm, if_true, reduceIte, hg, hcall, hchoices, List.head?_nil]

/-- A Gemini stub whose response object lacks the `text` attribute. -/
def geminiStubNoText : GeminiClient :=
  fun _ _ => Except.ok ⟨none, "GenerateContentResponse(candidates=[])"⟩

/-- Handle state with only the text-less Gemini client. -/
def envGeminiNoText : Env := ⟨none, some geminiStubNoText, none⟩

/-- Witness for the amended C6 at a concrete input: a Gemini response
without `text` falls back to `str(response)`. -/
theorem C6_amended_text_fallback_witness :
    analyze_code envGeminiNoText ⟨"x=1", "gemini"⟩ =
      AnalyzeResult.success "unknown" "GenerateContentResponse(candidates=[])" :=
  (C6_amended_text_fallback envGeminiNoText ⟨"x=1", "gemini"⟩).1 geminiStubNoText
    ⟨none, "GenerateContentResponse(candidates=[])"⟩ (by decide) rfl rfl rfl

/-- Every normal-status response of the handler carries either the Step-A
verdict or the catch-all `"error"` as its `security_score`. -/
theorem analyze_score_cases (env : Env) (payload : CodePayload) (score anal : String)
    (h : analyze_code env payload = AnalyzeResult.success score anal) :
    score = scanStep env.security_scanner payload.code ∨ score = "error" := by
  unfold analyze_code at h
  by_cases hm : payload.model = "groq"
  · rw [if_pos hm] at h
    cases hg : env.groq_client with
    | none => rw [hg] at h; cases h
    | some g =>
      simp only [hg] at h
      cases hc : g [("user", buildPrompt (scanStep env.security_scanner payload.code) payload.code)]
          "llama-3.3-70b-versatile" with
      | error e => simp only [hc, AnalyzeResult.success.injEq] at h; exact Or.inr h.1.symm
      | ok cc =>
        cases hh : cc.choices.head? with
        | none =>
          simp only [hc, hh, AnalyzeResult.success.injEq] at h
          exact Or.inr h.1.symm
        | some choice =>
          simp only [hc, hh, AnalyzeResult.success.injEq] at h
          exact Or.inl h.1.symm
  · rw [if_neg hm] at h
    cases hg : env.gemini_client with
    | none => rw [hg] at h; cases h
    | some g =>
      simp only [hg] at h
      cases hc : g "gemini-2.0-flash"
          (buildPrompt (scanStep env.security_scanner payload.code) payload.code) with
      | error e => simp only [hc, AnalyzeResult.success.injEq] at h; exact Or.inr h.1.symm
      | ok r => simp only [hc, AnalyzeResult.success.injEq] at h; exact Or.inl h.1.symm

/-- C7: the scanner-loading branch of `lifespan` is dead (guarded by the
hard-disabled policy flag), so after any startup the scanner handle is
`None`; consequently every normal-status response has `security_score`
equal to `"unknown"` or `"error"`, never `"secure"` or `"insecure"`. -/
theorem C7_scanner_disabled_invariant (senv : StartupEnv) (payload : CodePayload)
    (score : String) :
    (lifespan_startup senv).security_scanner = none ∧
    ((analyze_code (lifespan_startup senv) payload).score? = some score →
      score = "unknown" ∨ score = "error") := by
  have hnone : (lifespan_startup senv).security_scanner = none := by
    simp [lifespan_startup, scannerLoadingEnabled]
  refine ⟨hnone, ?_⟩
  intro h
  cases hres : analyze_code (lifespan_startup senv) payload with
  | httpError st d => rw [hres] at h; cases h
  | success sc an =>
    rw [hres] at h
    simp only [AnalyzeResult.score?, Option.some.injEq] at h
    subst h
    rcases analyze_score_cases (lifespan_startup senv) payload sc an hres with h1 | h1
    · left
      rw [h1]
      simp [scanStep, hnone]
    · right
      exact h1

/-- Startup environment in which only the Gemini SDK and credential are
available, and its constructor succeeds with the `"OK"` stub. -/
def senvGeminiOK : StartupEnv :=
  ⟨none, some (fun _ => Except.ok geminiStubOK), none, some "key", none⟩

/-- Witness for C7 at a concrete input: after a startup that does yield a
Gemini client, the scanner is still `None` and a completed request scores
`"unknown"`. -/
theorem C7_scanner_disabled_invariant_witness :
    (lifespan_startup senvGeminiOK).security_scanner = none ∧
    ("unknown" = "unknown" ∨ "unknown" = "error") := by
  have h := C7_scanner_disabled_invariant senvGeminiOK ⟨"x=1", "gemini"⟩ "unknown"
  exact ⟨h.1, h.2 rfl⟩

/-- C8: the startup phase is total and swallows every individual failure:
for any combination of missing SDK modules, absent or empty credentials,
and constructors that raise, the affected handle is left `None` (and the
scanner is always `None`); `lifespan_startup` being a total function, it
returns an `Env` — startup completes — for every such environment. -/
theorem C8_startup_robust (senv : StartupEnv) :
    (lifespan_startup senv).security_scanner = none ∧
    (senv.genai = none → (lifespan_startup senv).gemini_client = none) ∧
    (senv.GEMINI_API_KEY = none ∨ senv.GEMINI_API_KEY = some "" →
      (lifespan_startup senv).gemini_client = none) ∧
    (∀ ctor gemini_key e, senv.genai = some ctor →
      senv.GEMINI_API_KEY = some gemini_key → ctor gemini_key = Except.error e →
      (lifespan_startup senv).gemini_client = none) ∧
    (senv.Groq = none → (lifespan_startup senv).groq_client = none) ∧
    (senv.GROQ_API_KEY = none ∨ senv.GROQ_API_KEY = some "" →
      (lifespan_startup senv).groq_client = none) ∧
    (∀ ctor groq_key e, senv.Groq = some ctor →
      senv.GROQ_API_KEY = some groq_key → ctor groq_key = Except.error e →
      (lifespan_startup senv).groq_client = none) := by
  refine ⟨?_, ?_, ?_, ?_, ?_, ?_, ?_⟩
  · simp [lifespan_startup, scannerLoadingEnabled]
  · intro h
    simp [lifespan_startup, h]
  · rintro (h | h) <;> cases hg : senv.genai <;> simp [lifespan_startup, h, hg]
  · intro ctor gemini_key e h1 h2 h3
    by_cases hk : gemini_key = ""
    · simp [lifespan_startup, h1, h2, hk]
    · simp [lifespan_startup, h1, h2, hk, h3]
  · intro h
    simp [lifespan_startup, h]
  · rintro (h | h) <;> cases hg : senv.Groq <;> simp [lifespan_startup, h, hg]
  · intro ctor groq_key e h1 h2 h3
    by_cases hk : groq_key = ""
    · simp [lifespan_startup, h1, h2, hk]
    · simp [lifespan_startup, h1, h2, hk, h3]

/-- Startup environment with no SDKs and no credentials at all. -/
def senvNothing : StartupEnv := ⟨none, none, none, none, none⟩

/-- Witness for C8 at a concrete input: with nothing available, startup
still yields a state — all three handles `None`. -/
theorem C8_startup_robust_witness :
    (lifespan_startup senvNothing).security_scanner = none ∧
    (lifespan_startup senvNothing).gemini_client = none ∧
    (lifespan_startup senvNothing).groq_client = none := by
  have h := C8_startup_robust senvNothing
  exact ⟨h.1, h.2.1 rfl, h.2.2.2.2.1 rfl⟩

/-- C9: the handler is deterministic in its inputs — with the same handle
state, two requests with equal `code` and equal `model` produce identical
responses (no per-request randomness introduced by the handler itself). -/
theorem C9_deterministic (env : Env) (p q : CodePayload)
    (hcode : p.code = q.code) (hmodel : p.model = q.model) :
    analyze_code env p = analyze_code env q := by
  cases p
  cases q
  simp only at hcode hmodel
  subst hcode
  subst hmodel
  rfl

/-- Witness for C9 at a concrete input: the payload with the default model
and the payload with the model spelled out get identical responses. -/
theorem C9_deterministic_witness :
    analyze_code envGeminiOnly ⟨"x=1", "gemini"⟩ =
      analyze_code envGeminiOnly { code := "x=1" } :=
  C9_deterministic envGeminiOnly ⟨"x=1", "gemini"⟩ { code := "x=1" } rfl rfl

/-- C10: the prompt handed to whichever provider is selected is the single
string built by Step B: it contains the verbatim code as a substring (no
escaping), embeds the Step-A verdict, contains the bug-report-and-rewrite
instruction, and at most one provider call — carrying exactly that
prompt — is made per request. -/
theorem C10_prompt_shape (env : Env) (payload : CodePayload) :
    (∃ pre post,
      buildPrompt (scanStep env.security_scanner payload.code) payload.code =
        pre ++ payload.code ++ post) ∧
    (∃ pre post,
      buildPrompt (scanStep env.security_scanner payload.code) payload.code =
        pre ++ scanStep env.security_scanner payload.code ++ post) ∧
    (∃ pre post,
      buildPrompt (scanStep env.security_scanner payload.code) payload.code =
        pre ++ "Provide a brief bug report and then the fully optimized version." ++ post) ∧
    (callsOf env payload).length ≤ 1 ∧
    (∀ c ∈ callsOf env payload,
      c.usesPrompt
        (buildPrompt (scanStep env.security_scanner payload.code) payload.code)) := by
  refine ⟨?_, ?_, ?_, ?_, ?_⟩
  · exact ⟨promptHead ++ scanStep env.security_scanner payload.code ++ promptMid,
      promptTail, by simp [buildPrompt, String.append_assoc]⟩
  · exact ⟨promptHead, promptMid ++ payload.code ++ promptTail,
      by simp [buildPrompt, String.append_assoc]⟩
  · refine ⟨promptHead ++ scanStep env.security_scanner payload.code ++ ".\n        ",
      "\n        \n        CODE:\n        " ++ payload.code ++ promptTail, ?_⟩
    simp only [buildPrompt, promptMid, instructionText, String.append_assoc]
  · rw [callsOf_eq]
    by_cases hm : payload.model = "groq"
    · rw [if_pos hm]; cases env.groq_client <;> simp
    · rw [if_neg hm]; cases env.gemini_client <;> simp
  · rw [callsOf_eq]
    by_cases hm : payload.model = "groq"
    · rw [if_pos hm]
      cases env.groq_client with
      | none => intro c hc; cases hc
      | some g =>
        intro c hc
        simp only [List.mem_singleton] at hc
        subst hc
        simp [Call.usesPrompt]
    · rw [if_neg hm]
      cases env.gemini_client with
      | none => intro c hc; cases hc
      | some g =>
        intro c hc
        simp only [List.mem_singleton] at hc
        subst hc
        simp [Call.usesPrompt]

/-- Witness for C10 at a concrete input: the one recorded Gemini call of a
concrete request carries exactly the Step-B prompt, and at most one call
was made. -/
theorem C10_prompt_shape_witness :
    Call.usesPrompt (Call.gemini "gemini-2.0-flash" (buildPrompt "unknown" "x=1"))
      (buildPrompt "unknown" "x=1") ∧
    (callsOf envGeminiOnly ⟨"x=1", "gemini"⟩).length ≤ 1 := by
  have h := C10_prompt_shape envGeminiOnly ⟨"x=1", "gemini"⟩
  have hceq : callsOf envGeminiOnly ⟨"x=1", "gemini"⟩ =
      [Call.gemini "gemini-2.0-flash" (buildPrompt "unknown" "x=1")] := rfl
  refine ⟨?_, h.2.2.2.1⟩
  exact h.2.2.2.2 (Call.gemini "gemini-2.0-flash" (buildPrompt "unknown" "x=1"))
    (by rw [hceq]; exact List.mem_singleton.mpr rfl)
